import Mathlib

/-!
Verification of the SrBoy delivery-platform core algorithms.

Shallow embedding of the algorithmic core of the backend:
- the handoff-PIN protocol and the delivered-transition gate
  (backend/server.py: generate_delivery_pin, validate_delivery_pin,
  update_delivery_status),
- courier matching (backend/server.py: find_best_motoboy),
- behavioral risk analysis, identity verification, route optimization,
  demand heatmaps and chat moderation (backend/security_algorithms.py).

Conventions of the embedding:
- Python floats are modelled as rationals (ℚ).
- Python strings are modelled as String for enum-like values and as
  List Char where character-level processing happens.
- Python dict accesses that can raise KeyError are modelled with Option
  fields; a computation that would raise is modelled with Except.
- geopy geodesic distance is an abstract parameter
  dist : Coord → Coord → ℚ of every function that measures distance;
  concrete evaluations instantiate it with an executable stand-in.
- datetime values are modelled as rational epoch offsets (the unit is
  noted at each field); datetime.now() becomes an explicit parameter.
- random.choice / np.random become explicit choice parameters.
-/

/-- A latitude/longitude pair, the coordinate records used everywhere. -/
structure Coord where
  lat : ℚ
  lng : ℚ
deriving DecidableEq

/-- Python builtin min over two floats (ties keep the first argument). -/
def qmin (a b : ℚ) : ℚ := if b < a then b else a

/-- Python builtin max over two floats (ties keep the first argument). -/
def qmax (a b : ℚ) : ℚ := if a < b then b else a

/-- Python round(x, 2): the rounding applied by risk and route reports.
Modelled as round-half-up on exact rationals (the source rounds IEEE
doubles, where half-way cases are immaterial to the claims checked). -/
def roundTo2 (x : ℚ) : ℚ := ((round (x * 100) : ℤ) : ℚ) / 100

/-- Consecutive pairs of a list: models iteration over indices
range(1, len(l)) accessing l[i-1] and l[i]. -/
def consecutivePairs {α : Type} : List α → List (α × α)
  | a :: b :: rest => (a, b) :: consecutivePairs (b :: rest)
  | _ => []

/-- Python substring test needle in hay over character lists. -/
def strContains (hay needle : List Char) : Bool :=
  match hay with
  | [] => needle.isEmpty
  | _ :: t => needle.isPrefixOf hay || strContains t needle

/-- Fuel-bounded body of pyReplace; the fuel is the length of the
haystack, which bounds the number of recursive steps. -/
def pyReplaceAux (needle repl : List Char) : Nat → List Char → List Char
  | 0, hay => hay
  | _ + 1, [] => []
  | fuel + 1, h :: t =>
    if !needle.isEmpty && needle.isPrefixOf (h :: t) then
      repl ++ pyReplaceAux needle repl fuel (t.drop (needle.length - 1))
    else
      h :: pyReplaceAux needle repl fuel t

/-- Python str.replace(needle, repl): replaces every non-overlapping
occurrence, scanning left to right. -/
def pyReplace (hay needle repl : List Char) : List Char :=
  pyReplaceAux needle repl hay.length hay

/-- Python str.lower per character, over the ASCII and Latin-1 letters
that occur in this code base (A-Z, and À-Þ except ×). -/
def pyLowerChar (c : Char) : Char :=
  if 'A' ≤ c ∧ c ≤ 'Z' then Char.ofNat (c.toNat + 32)
  else if 0xC0 ≤ c.toNat ∧ c.toNat ≤ 0xDE ∧ c.toNat ≠ 0xD7 then Char.ofNat (c.toNat + 32)
  else c

/-- Python str.lower over a character list. -/
def pyLower (s : List Char) : List Char := s.map pyLowerChar

/-- Python str.upper per character (inverse range of pyLowerChar). -/
def pyUpperChar (c : Char) : Char :=
  if 'a' ≤ c ∧ c ≤ 'z' then Char.ofNat (c.toNat - 32)
  else if 0xE0 ≤ c.toNat ∧ c.toNat ≤ 0xFE ∧ c.toNat ≠ 0xF7 then Char.ofNat (c.toNat - 32)
  else c

/-- Python str.upper over a character list. -/
def pyUpper (s : List Char) : List Char := s.map pyUpperChar

/-- Python str.isupper for a single character, over the same letter
ranges as pyLowerChar. -/
def pyIsUpper (c : Char) : Bool :=
  decide ('A' ≤ c ∧ c ≤ 'Z') || decide (0xC0 ≤ c.toNat ∧ c.toNat ≤ 0xDE ∧ c.toNat ≠ 0xD7)

/-- Python truthiness of an optional string field: present and
non-empty. -/
def optTruthy : Option (List Char) → Bool
  | none => false
  | some s => !s.isEmpty

/-!
## HandoffPinProtocol — backend/server.py lines 594-661 and the
delivered branch of update_delivery_status (lines 1037-1056)
-/

/-- The character set of generate_delivery_pin:
string.ascii_uppercase + string.digits. -/
def pin_characters : List Char := "ABCDEFGHIJKLMNOPQRSTUVWXYZ0123456789".toList

/-- generate_delivery_pin (server.py 594-606). The eight calls to
random.choice(characters) are modelled by the choice argument; the
result is (pin_completo, pin_confirmacao) with
pin_confirmacao = pin_completo[-4:]. -/
def generate_delivery_pin (choice : Fin 8 → Fin 36) : List Char × List Char :=
  let pin_completo := List.ofFn fun i : Fin 8 => pin_characters.getD (choice i) 'A'
  (pin_completo, pin_completo.drop (pin_completo.length - 4))

/-- The PIN sub-record of a delivery, as written by accept_delivery and
read by validate_delivery_pin / update_delivery_status. -/
structure PinState where
  pin_confirmacao : Option (List Char)
  pin_tentativas : Nat
  pin_bloqueado : Bool
  pin_validado_com_sucesso : Bool
deriving DecidableEq

/-- The JSON response of validate_delivery_pin, reduced to the fields
the caller branches on (the human-readable message is omitted; the
validated_at timestamp, a wall-clock side effect, is omitted). -/
structure PinResponse where
  success : Bool
  code : String
  attempts : Option Nat
  remaining : Option Nat
deriving DecidableEq

/-- validate_delivery_pin (server.py 608-661), acting on the PIN
sub-record of one existing delivery (the DELIVERY_NOT_FOUND branch is
the persistence lookup, outside the sub-record state machine). Returns
the response and the updated sub-record. -/
def validate_delivery_pin (d : PinState) (entered_pin : List Char) : PinResponse × PinState :=
  if d.pin_bloqueado then
    (⟨false, "PIN_BLOCKED", none, none⟩, d)
  else if !optTruthy d.pin_confirmacao then
    (⟨false, "NO_PIN", none, none⟩, d)
  else
    match d.pin_confirmacao with
    | none => (⟨false, "NO_PIN", none, none⟩, d)
    | some confirm =>
      if pyUpper entered_pin = pyUpper confirm then
        (⟨true, "PIN_VALID", none, none⟩,
         { d with pin_tentativas := 0, pin_validado_com_sucesso := true })
      else if d.pin_tentativas + 1 ≥ 3 then
        (⟨false, "PIN_BLOCKED", some (d.pin_tentativas + 1), none⟩,
         { d with pin_tentativas := d.pin_tentativas + 1, pin_bloqueado := true })
      else
        (⟨false, "PIN_INCORRECT", some (d.pin_tentativas + 1),
          some (3 - (d.pin_tentativas + 1))⟩,
         { d with pin_tentativas := d.pin_tentativas + 1 })

/-- A sequence of validate_delivery_pin calls on one delivery,
returning the list of responses and the final sub-record. -/
def runValidate (d : PinState) : List (List Char) → List PinResponse × PinState
  | [] => ([], d)
  | e :: es =>
    let step := validate_delivery_pin d e
    let rest := runValidate step.2 es
    (step.1 :: rest.1, rest.2)

/-- Outcome of the delivered branch of update_delivery_status: either
the transition proceeds or an HTTPException(400) with the given detail
is raised. -/
inductive DeliveredOutcome where
  | ok
  | httpError (detail : String)
deriving DecidableEq

/-- The PIN gate of the delivered branch of update_delivery_status
(server.py 1037-1056): if the delivery has a (truthy) pin_confirmacao,
first a blocked PIN raises, then a not-yet-validated PIN raises;
otherwise the transition proceeds. -/
def update_delivery_status_delivered (d : PinState) : DeliveredOutcome :=
  if optTruthy d.pin_confirmacao then
    if d.pin_bloqueado then
      DeliveredOutcome.httpError "PIN bloqueado apos 3 tentativas incorretas."
    else if !d.pin_validado_com_sucesso then
      DeliveredOutcome.httpError "PIN de confirmacao deve ser validado antes de finalizar a entrega."
    else
      DeliveredOutcome.ok
  else
    DeliveredOutcome.ok

/-!
## DeliveryMatcher — backend/server.py lines 450-495
-/

/-- The courier fields read by find_best_motoboy. The persistence query
(user_type, is_available, base_city) is modelled as an explicit filter
over an input list of motoboy records. -/
structure Motoboy where
  mid : Nat
  is_available : Bool
  base_city : String
  current_location : Option Coord
  ranking_score : Option ℚ
deriving DecidableEq

/-- One candidate entry built by find_best_motoboy. -/
structure Candidate where
  motoboy : Motoboy
  distance_to_pickup : ℚ
  weighted_score : ℚ
  ranking_score : ℚ
deriving DecidableEq

/-- Stable insertion into a list sorted descending by weighted_score:
an element that ties keeps the earlier element first, as Python
list.sort(key=..., reverse=True) does. -/
def insertCandidateDesc (x : Candidate) : List Candidate → List Candidate
  | [] => [x]
  | b :: bs =>
    if x.weighted_score < b.weighted_score then b :: insertCandidateDesc x bs
    else x :: b :: bs

/-- Stable descending sort by weighted_score, modelling
candidates.sort(key=lambda x: x['weighted_score'], reverse=True). -/
def sortCandidatesDesc : List Candidate → List Candidate
  | [] => []
  | x :: xs => insertCandidateDesc x (sortCandidatesDesc xs)

/-- find_best_motoboy (server.py 459-495). The geodesic distance of
calculate_distance is the dist parameter. Couriers without a
current_location are skipped; the best weighted score wins, first-seen
on ties. -/
def find_best_motoboy (dist : Coord → Coord → ℚ) (motoboys : List Motoboy)
    (pickup_city : String) (pickup_address : Coord) : Option Candidate :=
  let available_motoboys := motoboys.filter fun m =>
    m.is_available && m.base_city == pickup_city
  if available_motoboys.isEmpty then none
  else
    let candidates := available_motoboys.filterMap fun motoboy =>
      match motoboy.current_location with
      | none => none
      | some loc =>
        let distance_to_pickup := dist loc pickup_address
        let ranking_score := motoboy.ranking_score.getD 100
        let proximity_score := qmax 0 (100 - distance_to_pickup * 10)
        some ⟨motoboy, distance_to_pickup,
              ranking_score * 0.7 + proximity_score * 0.3, ranking_score⟩
    (sortCandidatesDesc candidates).head?

/-!
## IdentityVerifier — backend/security_algorithms.py lines 308-344
-/

/-- The courier fields read by requires_verification. Timestamps are
rational day offsets from an epoch; datetime.now() is the now
parameter. -/
structure MotoboyVerification where
  last_identity_verification : Option ℚ
  risk_level : String
  created_at : Option ℚ
  wallet_balance : ℚ
deriving DecidableEq

/-- _calculate_account_age (security_algorithms.py 412-417): 0 when
created_at is absent, else whole days since creation. -/
def calculate_account_age (now : ℚ) : Option ℚ → ℤ
  | none => 0
  | some created => ⌊now - created⌋

/-- _days_since_verification (security_algorithms.py 419-422). -/
def days_since_verification (now v : ℚ) : ℤ := ⌊now - v⌋

/-- The repeated pattern not last_verification or
_days_since_verification(last_verification) >= days. -/
def verification_due (now : ℚ) (last : Option ℚ) (days : ℤ) : Bool :=
  match last with
  | none => true
  | some v => decide (days_since_verification now v ≥ days)

/-- requires_verification (security_algorithms.py 319-344). -/
def requires_verification (now : ℚ) (m : MotoboyVerification) : Bool :=
  if decide (calculate_account_age now m.created_at ≤ 7)
      && m.last_identity_verification.isNone then true
  else if (m.risk_level == "high" || m.risk_level == "critical")
      && verification_due now m.last_identity_verification 1 then true
  else if verification_due now m.last_identity_verification 30 then true
  else if decide (m.wallet_balance > 500)
      && verification_due now m.last_identity_verification 7 then true
  else false

/-!
## RiskAnalyzer — backend/security_algorithms.py lines 22-305
-/

/-- A point of the courier location-history trace; the timestamp is in
hours (the source divides datetime differences by 3600 seconds). -/
structure LocationPoint where
  lat : ℚ
  lng : ℚ
  timestamp : ℚ
deriving DecidableEq

/-- A delivery-history snapshot; the two timestamps are in minutes (the
source divides datetime differences by 60 seconds). -/
structure DeliverySnapshot where
  status : String
  pickup_confirmed_at : Option ℚ
  delivered_at : Option ℚ
deriving DecidableEq

/-- The courier fields read by analyze_behavioral_risk. -/
structure MotoboyData where
  delivery_history : List DeliverySnapshot
  location_history : List LocationPoint
  base_city : String
deriving DecidableEq

/-- One risk factor result (the factor-specific extra metrics and the
interpolated numbers of the detail strings are omitted; the claims
only read the score). -/
structure RiskFactor where
  factor : String
  score : ℚ
  details : String
deriving DecidableEq

/-- _analyze_carousel_pattern (security_algorithms.py 84-106). -/
def analyze_carousel_pattern (m : MotoboyData) : RiskFactor :=
  let deliveries := m.delivery_history
  if deliveries.length < 10 then ⟨"carousel_pattern", 0, "Insufficient data"⟩
  else
    let recent_deliveries := deliveries.drop (deliveries.length - 30)
    let cancelled_count := (recent_deliveries.filter fun d => d.status == "cancelled").length
    let acceptance_rate : ℚ :=
      ((recent_deliveries.length : ℚ) - (cancelled_count : ℚ)) / (recent_deliveries.length : ℚ)
    if acceptance_rate < 0.3 then ⟨"carousel_pattern", 1, "Low acceptance rate"⟩
    else ⟨"carousel_pattern", 0, "Normal acceptance rate"⟩

/-- The speeds list of _analyze_speed_patterns: geodesic distance over
time difference for every consecutive pair with positive time
difference. -/
def segment_speeds (dist : Coord → Coord → ℚ) (hist : List LocationPoint) : List ℚ :=
  (consecutivePairs hist).filterMap fun pc =>
    let distance := dist ⟨pc.1.lat, pc.1.lng⟩ ⟨pc.2.lat, pc.2.lng⟩
    let time_diff := pc.2.timestamp - pc.1.timestamp
    if time_diff > 0 then some (distance / time_diff) else none

/-- Python max over a list (max of the empty list raises; here the
caller checks emptiness first, so an Option result is returned). -/
def qmaxList : List ℚ → Option ℚ
  | [] => none
  | a :: rest =>
    match qmaxList rest with
    | none => some a
    | some b => some (qmax a b)

/-- _analyze_speed_patterns (security_algorithms.py 108-153). -/
def analyze_speed_patterns (dist : Coord → Coord → ℚ) (m : MotoboyData) : RiskFactor :=
  if m.location_history.length < 5 then ⟨"speed_anomaly", 0, "Insufficient location data"⟩
  else
    let speeds := segment_speeds dist m.location_history
    match qmaxList speeds with
    | none => ⟨"speed_anomaly", 0, "No speed data"⟩
    | some max_speed =>
      if max_speed > 80 then ⟨"speed_anomaly", qmin (max_speed / 100) 1, "Abnormal max speed"⟩
      else ⟨"speed_anomaly", 0, "Normal speed patterns"⟩

/-- _analyze_time_patterns (security_algorithms.py 155-198). np.std is
the square root of the population variance; the anomaly condition
abs(t - avg) > 2 * std is stated equivalently with both sides squared,
(t - avg)^2 > 4 * variance, to stay inside ℚ. -/
def analyze_time_patterns (m : MotoboyData) : RiskFactor :=
  let completed_deliveries := m.delivery_history.filter fun d => d.status == "delivered"
  if completed_deliveries.length < 5 then
    ⟨"time_anomaly", 0, "Insufficient completed deliveries"⟩
  else
    let delivery_times := completed_deliveries.filterMap fun d =>
      match d.pickup_confirmed_at, d.delivered_at with
      | some p, some q => some (q - p)
      | _, _ => none
    if delivery_times.isEmpty then ⟨"time_anomaly", 0, "No timing data"⟩
    else
      let avg_time := delivery_times.sum / (delivery_times.length : ℚ)
      let variance := (delivery_times.map fun t => (t - avg_time) ^ 2).sum / (delivery_times.length : ℚ)
      let anomalous_deliveries := delivery_times.filter fun t =>
        decide ((t - avg_time) ^ 2 > 4 * variance)
      let anomaly_rate := (anomalous_deliveries.length : ℚ) / (delivery_times.length : ℚ)
      if anomaly_rate > 0.2 then ⟨"time_anomaly", anomaly_rate, "High anomaly rate"⟩
      else ⟨"time_anomaly", 0, "Normal delivery times"⟩

/-- A static city bounding box of _get_city_boundaries. -/
structure CityBounds where
  lat_min : ℚ
  lat_max : ℚ
  lng_min : ℚ
  lng_max : ℚ
deriving DecidableEq

/-- _get_city_boundaries (security_algorithms.py 285-294); an unknown
city yields the empty dict, modelled as none. -/
def get_city_boundaries (city : String) : Option CityBounds :=
  if city = "São Roque" then some ⟨-23.6, -23.5, -47.2, -47.1⟩
  else if city = "Mairinque" then some ⟨-23.6, -23.5, -47.2, -47.1⟩
  else if city = "Araçariguama" then some ⟨-23.5, -23.4, -47.1, -47.0⟩
  else if city = "Alumínio" then some ⟨-23.6, -23.5, -47.3, -47.2⟩
  else if city = "Ibiúna" then some ⟨-23.7, -23.6, -47.3, -47.2⟩
  else none

/-- _is_within_city_boundaries (security_algorithms.py 296-305); with
no boundaries every location is valid. -/
def is_within_city_boundaries (loc : Coord) : Option CityBounds → Bool
  | none => true
  | some b =>
    decide (b.lat_min ≤ loc.lat) && decide (loc.lat ≤ b.lat_max)
      && decide (b.lng_min ≤ loc.lng) && decide (loc.lng ≤ b.lng_max)

/-- _analyze_location_consistency (security_algorithms.py 200-261).
The loop over indices 1..len-1 is the consecutive-pairs traversal: the
movement speeds come from pairs with positive time difference, and the
out-of-bounds count ranges over the second component of each pair
(every point except the first). -/
def analyze_location_consistency (dist : Coord → Coord → ℚ) (m : MotoboyData) : RiskFactor :=
  if m.location_history.length < 3 then
    ⟨"location_consistency", 0, "Insufficient location data"⟩
  else
    let city_boundaries := get_city_boundaries m.base_city
    let pairs := consecutivePairs m.location_history
    let movement_speeds := pairs.filterMap fun pc =>
      let distance := dist ⟨pc.1.lat, pc.1.lng⟩ ⟨pc.2.lat, pc.2.lng⟩
      let time_diff := pc.2.timestamp - pc.1.timestamp
      if time_diff > 0 then some (distance / time_diff) else none
    let impossible_jumps := (movement_speeds.filter fun s => decide (s > 150)).length
    let total_movements := movement_speeds.length
    let out_of_bounds_count :=
      (pairs.filter fun pc =>
        !is_within_city_boundaries ⟨pc.2.lat, pc.2.lng⟩ city_boundaries).length
    if total_movements = 0 then ⟨"location_consistency", 0, "No movement data"⟩
    else
      let jump_rate := (impossible_jumps : ℚ) / (total_movements : ℚ)
      let out_of_bounds_rate := (out_of_bounds_count : ℚ) / (m.location_history.length : ℚ)
      let total_inconsistency := jump_rate + out_of_bounds_rate
      if total_inconsistency > 0.1 then
        ⟨"location_consistency", qmin total_inconsistency 1, "Location inconsistencies detected"⟩
      else ⟨"location_consistency", 0, "Location patterns consistent"⟩

/-- The four factors in the order analyze_behavioral_risk appends
them. -/
def risk_factor_list (dist : Coord → Coord → ℚ) (m : MotoboyData) : List RiskFactor :=
  [analyze_carousel_pattern m, analyze_speed_patterns dist m,
   analyze_time_patterns m, analyze_location_consistency dist m]

/-- The accumulated risk_score of analyze_behavioral_risk before
normalization (lines 38-59): the sum of the four factor scores. -/
def factor_score_sum (dist : Coord → Coord → ℚ) (m : MotoboyData) : ℚ :=
  ((risk_factor_list dist m).map RiskFactor.score).sum

/-- The analysis object returned by analyze_behavioral_risk (the
motoboy id, timestamp and recommended-action table are omitted; the
claims read score, level, factors and the review flag). -/
structure RiskReport where
  risk_score : ℚ
  risk_level : String
  risk_factors : List RiskFactor
  requires_manual_review : Bool
deriving DecidableEq

/-- analyze_behavioral_risk (security_algorithms.py 33-82): the
aggregate is min(sum * 25, 100); the level thresholds are at 25, 50
and 75; the reported risk_score field is rounded to two decimals. -/
def analyze_behavioral_risk (dist : Coord → Coord → ℚ) (m : MotoboyData) : RiskReport :=
  let final_risk_score := qmin (factor_score_sum dist m * 25) 100
  let risk_level : String :=
    if final_risk_score ≤ 25 then "low"
    else if final_risk_score ≤ 50 then "medium"
    else if final_risk_score ≤ 75 then "high"
    else "critical"
  ⟨roundTo2 final_risk_score, risk_level, risk_factor_list dist m,
   risk_level == "high" || risk_level == "critical"⟩

/-!
## RouteOptimizer — backend/security_algorithms.py lines 443-588
-/

/-- The delivery fields read by optimize_multiple_deliveries. -/
structure DeliveryOrder where
  id : Nat
  pickup_address : Coord
  delivery_address : Coord
  priority_score : ℚ
deriving DecidableEq

/-- A route-point dict. The three dict shapes that flow through the
optimizer (the raw motoboy location and the pickup/delivery points) are
modelled as one record of optional fields, one per dict key, so that a
missing key is a none. -/
structure RoutePoint where
  ptype : Option String
  delivery_id : Option Nat
  location : Option Coord
  priority : Option ℚ
  lat : Option ℚ
  lng : Option ℚ
deriving DecidableEq

/-- The start point of the route: the motoboy_location dict, which has
top-level lat/lng keys and no type, location or priority key. -/
def startPoint (mloc : Coord) : RoutePoint :=
  ⟨none, none, none, none, some mloc.lat, some mloc.lng⟩

/-- A pickup route point as built by optimize_multiple_deliveries. -/
def pickupPoint (d : DeliveryOrder) : RoutePoint :=
  ⟨some "pickup", some d.id, some d.pickup_address, some d.priority_score, none, none⟩

/-- A delivery route point as built by optimize_multiple_deliveries. -/
def deliveryPoint (d : DeliveryOrder) : RoutePoint :=
  ⟨some "delivery", some d.id, some d.delivery_address, some d.priority_score, none, none⟩

/-- The route_points list of optimize_multiple_deliveries (lines
454-473): motoboy location, then all pickups, then all deliveries. -/
def build_route_points (deliveries : List DeliveryOrder) (motoboy_location : Coord) :
    List RoutePoint :=
  startPoint motoboy_location
    :: (deliveries.map pickupPoint ++ deliveries.map deliveryPoint)

/-- Strict less-than of Python tuple comparison on the sort key
(-priority, distance_from_start). -/
def routeKeyLt (a b : ℚ × ℚ) : Bool :=
  decide (a.1 < b.1) || (a.1 == b.1 && decide (a.2 < b.2))

/-- The sort key of _solve_vehicle_routing: minus the priority, then
the geodesic distance from the start point. The getD defaults stand
for dict accesses that never miss on the pickup points built by
optimize_multiple_deliveries (every pickup point carries a priority
and a location). -/
def routeSortKey (dist : Coord → Coord → ℚ) (sloc : Coord) (p : RoutePoint) : ℚ × ℚ :=
  (-(p.priority.getD 0), dist sloc (p.location.getD ⟨0, 0⟩))

/-- Stable insertion into a list sorted ascending by the key: on equal
keys the freshly inserted (originally earlier) element goes first,
matching Python sorted. -/
def insertRouteAsc (key : RoutePoint → ℚ × ℚ) (x : RoutePoint) :
    List RoutePoint → List RoutePoint
  | [] => [x]
  | b :: bs =>
    if routeKeyLt (key b) (key x) then b :: insertRouteAsc key x bs
    else x :: b :: bs

/-- Stable ascending sort by the key, modelling sorted(pickups,
key=lambda x: (-x['priority'], distance)). -/
def sortRouteAsc (key : RoutePoint → ℚ × ℚ) : List RoutePoint → List RoutePoint
  | [] => []
  | x :: xs => insertRouteAsc key x (sortRouteAsc key xs)

/-- The pairing loop of _solve_vehicle_routing (lines 519-523): for
each sorted pickup emit the pickup and then the first delivery point
with the same delivery_id; a missing match is the StopIteration of the
next(...) call. -/
def pairPickupsWithDeliveries (dels : List RoutePoint) :
    List RoutePoint → Except String (List RoutePoint)
  | [] => Except.ok []
  | p :: ps =>
    match dels.find? fun d => d.delivery_id == p.delivery_id with
    | none => Except.error "StopIteration"
    | some d => (pairPickupsWithDeliveries dels ps).map fun rest => p :: d :: rest

/-- _solve_vehicle_routing (security_algorithms.py 502-525). The start
point is the first input point that is neither a pickup nor a
delivery; its top-level lat/lng dict accesses (line 513) are the only
field accesses that can miss, and are hoisted before the sort. -/
def solve_vehicle_routing (dist : Coord → Coord → ℚ) (points : List RoutePoint) :
    Except String (List RoutePoint) :=
  let pickups := points.filter fun p => p.ptype == some "pickup"
  let deliveries := points.filter fun p => p.ptype == some "delivery"
  let starts := points.filter fun p =>
    p.ptype != some "pickup" && p.ptype != some "delivery"
  match starts.head? with
  | none => Except.error "IndexError: list index out of range"
  | some start_point =>
    match start_point.lat, start_point.lng with
    | some slat, some slng =>
      let pickups_sorted := sortRouteAsc (routeSortKey dist ⟨slat, slng⟩) pickups
      (pairPickupsWithDeliveries deliveries pickups_sorted).map
        fun route => start_point :: route
    | _, _ => Except.error "KeyError: 'lat'"

/-- _estimate_segment_time (security_algorithms.py 527-540). The
datetime.now().hour read is the hour parameter; the two point
arguments of the source are unused by its body and dropped. -/
def estimate_segment_time (hour : Nat) (distance : ℚ) : ℚ :=
  let base_time := distance / 30 * 60
  let traffic_multiplier : ℚ :=
    if (7 ≤ hour ∧ hour ≤ 9) ∨ (17 ≤ hour ∧ hour ≤ 19) then 1.5
    else if 11 ≤ hour ∧ hour ≤ 14 then 1.2
    else 1.0
  base_time * traffic_multiplier

/-- The distance loop of optimize_multiple_deliveries (lines 482-492):
each consecutive pair of emitted points is measured through the
location dict key of both points; a point without that key (the start
point) raises KeyError. -/
def route_leg_distances (dist : Coord → Coord → ℚ) :
    List RoutePoint → Except String (List ℚ)
  | [] => Except.ok []
  | [_] => Except.ok []
  | a :: b :: rest =>
    match a.location, b.location with
    | some la, some lb =>
      (route_leg_distances dist (b :: rest)).map fun legs => dist la lb :: legs
    | _, _ => Except.error "KeyError: 'location'"

/-- The optimization result (the fuel_savings and optimization_score
fields are omitted: the empty-input early return does not construct
them, and on every non-empty input the distance loop raises before
they are computed, so no execution ever builds them). -/
structure RouteOptimization where
  optimized_route : List RoutePoint
  total_distance : ℚ
  estimated_time : ℚ
deriving DecidableEq

/-- optimize_multiple_deliveries (security_algorithms.py 449-500). -/
def optimize_multiple_deliveries (dist : Coord → Coord → ℚ) (hour : Nat)
    (deliveries : List DeliveryOrder) (motoboy_location : Coord) :
    Except String RouteOptimization :=
  if deliveries.isEmpty then Except.ok ⟨[], 0, 0⟩
  else
    match solve_vehicle_routing dist (build_route_points deliveries motoboy_location) with
    | Except.error e => Except.error e
    | Except.ok optimized_sequence =>
      match route_leg_distances dist optimized_sequence with
      | Except.error e => Except.error e
      | Except.ok legs =>
        Except.ok ⟨optimized_sequence, roundTo2 legs.sum,
          ((round ((legs.map (estimate_segment_time hour)).sum) : ℤ) : ℚ)⟩

/-!
## ChatModerator — backend/security_algorithms.py lines 772-937
-/

/-- The moderation result (message id, author, city, original text and
timestamp are omitted; the claims read the filtered text, the action,
the confidence and the flags). -/
structure ModerationResult where
  filtered_message : List Char
  action : String
  confidence : ℚ
  flags : List String
deriving DecidableEq

/-- _load_profanity_list (security_algorithms.py 917-922). -/
def profanity_list : List (List Char) :=
  ["idiota".toList, "burro".toList, "imbecil".toList, "estúpido".toList,
   "otário".toList, "babaca".toList, "corno".toList, "fdp".toList,
   "merda".toList, "porra".toList]

/-- _load_positive_keywords (security_algorithms.py 924-930). -/
def positive_keywords : List (List Char) :=
  ["obrigado".toList, "valeu".toList, "ajuda".toList, "dica".toList,
   "informação".toList, "cuidado".toList, "atenção".toList, "trânsito".toList,
   "blitz".toList, "radar".toList, "obras".toList, "devagar".toList,
   "segurança".toList, "beleza".toList, "tranquilo".toList, "sucesso".toList,
   "parabéns".toList]

/-- Result of _check_profanity. -/
structure ProfanityCheck where
  found : Bool
  filtered : List Char
  words : List (List Char)
  confidence : ℚ

/-- _check_profanity (security_algorithms.py 824-846): collect every
list word contained in the lowercased message, then mask each found
word (in list order) with asterisks of equal length in the original
message. -/
def check_profanity (message : List Char) : ProfanityCheck :=
  let message_lower := pyLower message
  let found_words := profanity_list.filter fun w => strContains message_lower w
  if found_words.isEmpty then ⟨false, message, [], 1.0⟩
  else
    let filtered_message := found_words.foldl
      (fun acc w => pyReplace acc w (List.replicate w.length '*')) message
    ⟨true, filtered_message, found_words, 0.9⟩

/-- Result of _check_spam. -/
structure SpamCheck where
  is_spam : Bool
  reason : Option String
  confidence : ℚ

/-- The repeated-character count of _check_spam: positions whose
character equals its immediate predecessor. -/
def repeated_chars (message : List Char) : Nat :=
  (consecutivePairs message).countP fun pc => pc.1 == pc.2

/-- The uppercase-character count of _check_spam. -/
def upper_count (message : List Char) : Nat := message.countP pyIsUpper

/-- _check_spam (security_algorithms.py 848-868). The user id argument
of the source is unused by its body and dropped. -/
def check_spam (message : List Char) : SpamCheck :=
  if message.length > 500 then ⟨true, some "too_long", 0.8⟩
  else if (repeated_chars message : ℚ) > (message.length : ℚ) * 0.5 then
    ⟨true, some "repeated_chars", 0.7⟩
  else
    let caps_frac : ℚ :=
      if message.isEmpty then 0 else (upper_count message : ℚ) / (message.length : ℚ)
    if caps_frac > 0.7 ∧ message.length > 10 then ⟨true, some "excessive_caps", 0.6⟩
    else if strContains (pyLower message) "http".toList
        || strContains (pyLower message) "www.".toList then
      ⟨true, some "contains_url", 0.9⟩
    else ⟨false, none, 1.0⟩

/-- Result of _check_safety_concerns. -/
structure SafetyCheck where
  has_concerns : Bool
  concerns : List String
  confidence : ℚ

/-- The location-disclosure keyword set of _check_safety_concerns. -/
def location_keywords : List (List Char) :=
  ["endereço".toList, "onde moro".toList, "casa".toList, "rua".toList,
   "número".toList]

/-- The emergency keyword set of _check_safety_concerns. -/
def emergency_keywords : List (List Char) :=
  ["acidente".toList, "roubo".toList, "assalto".toList, "emergência".toList,
   "socorro".toList, "polícia".toList]

/-- The harassment keyword set of _check_safety_concerns. -/
def harassment_keywords : List (List Char) :=
  ["idiota".toList, "burro".toList, "incompetente".toList]

/-- _check_safety_concerns (security_algorithms.py 870-898): each of
the three keyword sets appends its category and overwrites the
confidence when any of its keywords occurs. -/
def check_safety_concerns (message : List Char) : SafetyCheck :=
  let message_lower := pyLower message
  let s1 : List String × ℚ :=
    if location_keywords.any fun k => strContains message_lower k then
      (["location_sharing"], 0.7)
    else ([], 1.0)
  let s2 : List String × ℚ :=
    if emergency_keywords.any fun k => strContains message_lower k then
      (s1.1 ++ ["emergency"], 0.9)
    else s1
  let s3 : List String × ℚ :=
    if harassment_keywords.any fun k => strContains message_lower k then
      (s2.1 ++ ["harassment"], 0.8)
    else s2
  ⟨!s3.1.isEmpty, s3.1, s3.2⟩

/-- Result of _check_positive_content. -/
structure PositiveCheck where
  is_positive : Bool
  score : Nat
  confidence : ℚ

/-- _check_positive_content (security_algorithms.py 900-915). -/
def check_positive_content (message : List Char) : PositiveCheck :=
  let message_lower := pyLower message
  let positive_score := positive_keywords.countP fun k => strContains message_lower k
  let is_positive := decide (positive_score ≥ 2)
  ⟨is_positive, positive_score, if is_positive then 0.8 else 0.5⟩

/-- moderate_message (security_algorithms.py 780-822): profanity
filters and assigns its confidence; spam blocks and takes the minimum
confidence; safety flags for review and takes the minimum confidence;
positive content appends the helpful flag and takes the maximum of the
current confidence and its own. The author and city arguments only
feed the omitted metadata fields and are dropped. -/
def moderate_message (message : List Char) : ModerationResult :=
  let r0 : ModerationResult := ⟨message, "approved", 1.0, []⟩
  let pc := check_profanity message
  let r1 := if pc.found then
      { r0 with filtered_message := pc.filtered, action := "filtered",
                flags := r0.flags ++ ["profanity"], confidence := pc.confidence }
    else r0
  let sc := check_spam message
  let r2 := if sc.is_spam then
      { r1 with action := "blocked", flags := r1.flags ++ ["spam"],
                confidence := qmin r1.confidence sc.confidence }
    else r1
  let fc := check_safety_concerns message
  let r3 := if fc.has_concerns then
      { r2 with action := "flagged_for_review", flags := r2.flags ++ fc.concerns,
                confidence := qmin r2.confidence fc.confidence }
    else r2
  let qc := check_positive_content message
  if qc.is_positive then
    { r3 with flags := r3.flags ++ ["helpful"],
              confidence := qmax r3.confidence qc.confidence }
  else r3

/-- The minimum confidence over the triggering stages of
moderate_message before the positivity stage, the quantity the
specification describes: 1.0 pulled down by each stage that triggers. -/
def min_trigger_confidence (message : List Char) : ℚ :=
  let pc := check_profanity message
  let c1 := if pc.found then pc.confidence else 1.0
  let sc := check_spam message
  let c2 := if sc.is_spam then qmin c1 sc.confidence else c1
  let fc := check_safety_concerns message
  if fc.has_concerns then qmin c2 fc.confidence else c2

/-!
## Concrete instantiations used by evaluations
-/

/-- Executable stand-in for the abstract geodesic distance parameter,
used to evaluate the embedding on concrete inputs (any nonnegative
symmetric function of two coordinates fits the dist parameter; the
claims proved universally hold for every such function, in particular
for the true geodesic distance). -/
def sqDist (p q : Coord) : ℚ := (p.lat - q.lat) ^ 2 + (p.lng - q.lng) ^ 2

/-!
## C1 — delivered transition versus the validated and blocked flags
-/

/-- The PIN sub-record as accept_delivery initializes it (server.py
905-926): code set, zero attempts, not blocked, not validated. -/
def c1_initial : PinState := ⟨some "AB12".toList, 0, false, false⟩

/-- One successful validation followed by three wrong attempts. -/
def c1_attempts : List (List Char) :=
  ["AB12".toList, "XXXX".toList, "XXXX".toList, "XXXX".toList]

/-- C1 counterexample: a delivery whose PIN was validated successfully
and then blocked by three later wrong attempts has validated == true,
yet the delivered transition is refused, contradicting the claim that
it is permitted regardless of further attempts. -/
theorem c1_counterexample :
    (runValidate c1_initial c1_attempts).2.pin_validado_com_sucesso = true
    ∧ (runValidate c1_initial c1_attempts).2.pin_bloqueado = true
    ∧ update_delivery_status_delivered (runValidate c1_initial c1_attempts).2
        ≠ DeliveredOutcome.ok := by decide

/-- C1 (amended): with a PIN sub-record, the delivered transition is
permitted when validated == true and blocked == false; when blocked ==
true the transition is refused with the blocked-PIN domain error even
if validated == true, because update_delivery_status checks
pin_bloqueado before pin_validado_com_sucesso. -/
theorem c1_amended_delivered_gate (d : PinState) :
    (d.pin_validado_com_sucesso = true → d.pin_bloqueado = false →
      update_delivery_status_delivered d = DeliveredOutcome.ok)
    ∧ (d.pin_bloqueado = true → optTruthy d.pin_confirmacao = true →
      update_delivery_status_delivered d =
        DeliveredOutcome.httpError "PIN bloqueado apos 3 tentativas incorretas.") := by
  constructor
  · intro hv hb
    simp [update_delivery_status_delivered, hv, hb]
  · intro hb ht
    simp [update_delivery_status_delivered, hb, ht]

/-- A validated, unblocked PIN sub-record. -/
def c1_state_valid : PinState := ⟨some "ZZ99".toList, 1, false, true⟩

/-- A validated but blocked PIN sub-record. -/
def c1_state_blocked : PinState := ⟨some "ZZ99".toList, 3, true, true⟩

/-- C1 amended-theorem witness at two concrete sub-records. -/
theorem c1_amended_witness :
    update_delivery_status_delivered c1_state_valid = DeliveredOutcome.ok
    ∧ update_delivery_status_delivered c1_state_blocked =
        DeliveredOutcome.httpError "PIN bloqueado apos 3 tentativas incorretas." :=
  ⟨(c1_amended_delivered_gate c1_state_valid).1 rfl rfl,
   (c1_amended_delivered_gate c1_state_blocked).2 rfl (by decide)⟩

/-!
## C4 — monotonicity and permanent blocking of PIN validation
-/

/-- A blocked record is left untouched by validate_delivery_pin and
answers PIN_BLOCKED. -/
theorem validate_blocked_fixed (d : PinState) (e : List Char)
    (h : d.pin_bloqueado = true) :
    validate_delivery_pin d e = (⟨false, "PIN_BLOCKED", none, none⟩, d) := by
  simp [validate_delivery_pin, h]

/-- Across one validate_delivery_pin call, either the attempts counter
does not drop, or the call answered PIN_VALID and reset it to 0. -/
theorem validate_attempts_cases (d : PinState) (e : List Char) :
    ((validate_delivery_pin d e).1.code = "PIN_VALID"
      ∧ (validate_delivery_pin d e).2.pin_tentativas = 0)
    ∨ d.pin_tentativas ≤ (validate_delivery_pin d e).2.pin_tentativas := by
  unfold validate_delivery_pin
  split
  · right; exact le_refl _
  · split
    · right; exact le_refl _
    · split
      · right; exact le_refl _
      · split
        · left; exact ⟨rfl, rfl⟩
        · split
          · right; exact Nat.le_succ _
          · right; exact Nat.le_succ _

/-- C4 (confirmed): the attempts counter only ever decreases through a
successful validation, which returns PIN_VALID and resets it to 0; a
third wrong attempt on an unblocked active PIN blocks the record and
answers PIN_BLOCKED; and once blocked, every later validate call of
any input answers PIN_BLOCKED and leaves the record unchanged. -/
theorem c4_pin_validation_monotonic (d : PinState) (e : List Char)
    (es : List (List Char)) :
    ((validate_delivery_pin d e).2.pin_tentativas < d.pin_tentativas →
      (validate_delivery_pin d e).1.code = "PIN_VALID"
      ∧ (validate_delivery_pin d e).2.pin_tentativas = 0)
    ∧ (d.pin_bloqueado = false → optTruthy d.pin_confirmacao = true →
      (∀ confirm, d.pin_confirmacao = some confirm → pyUpper e ≠ pyUpper confirm) →
      2 ≤ d.pin_tentativas →
      (validate_delivery_pin d e).1.code = "PIN_BLOCKED"
      ∧ (validate_delivery_pin d e).2.pin_bloqueado = true)
    ∧ (d.pin_bloqueado = true →
      ((runValidate d es).1.all fun r => r.code == "PIN_BLOCKED") = true
      ∧ (runValidate d es).2 = d) := by
  refine ⟨?_, ?_, ?_⟩
  · intro hlt
    rcases validate_attempts_cases d e with h | h
    · exact h
    · omega
  · intro hb ht hne hge
    obtain ⟨confirm, hc⟩ : ∃ c, d.pin_confirmacao = some c := by
      cases hco : d.pin_confirmacao with
      | none => rw [hco] at ht; simp [optTruthy] at ht
      | some c => exact ⟨c, rfl⟩
    have hne2 := hne confirm hc
    rw [hc] at ht
    simp [validate_delivery_pin, hb, hc, ht, hne2,
      show d.pin_tentativas + 1 ≥ 3 from by omega]
  · intro hb
    induction es with
    | nil => exact ⟨rfl, rfl⟩
    | cons e' es' ih =>
      obtain ⟨ih1, ih2⟩ := ih
      have hstep := validate_blocked_fixed d e' hb
      simp only [runValidate, hstep]
      exact ⟨by simp [List.all_cons, ih1], ih2⟩

/-- A fresh record with two wrong attempts already counted. -/
def c4_state_two : PinState := ⟨some "AB12".toList, 2, false, false⟩

/-- A record with five counted attempts, not yet blocked. -/
def c4_state_five : PinState := ⟨some "AB12".toList, 5, false, false⟩

/-- A blocked record. -/
def c4_state_blocked : PinState := ⟨some "AB12".toList, 3, true, false⟩

/-- C4 witness: the three parts applied at concrete records — a
successful validation resetting five attempts to zero, a third wrong
attempt blocking, and a blocked record answering PIN_BLOCKED to a
sequence that includes the correct code. -/
theorem c4_witness :
    ((validate_delivery_pin c4_state_five "ab12".toList).1.code = "PIN_VALID"
      ∧ (validate_delivery_pin c4_state_five "ab12".toList).2.pin_tentativas = 0)
    ∧ ((validate_delivery_pin c4_state_two "QQQQ".toList).1.code = "PIN_BLOCKED"
      ∧ (validate_delivery_pin c4_state_two "QQQQ".toList).2.pin_bloqueado = true)
    ∧ (((runValidate c4_state_blocked ["AB12".toList, "QQQQ".toList]).1.all
          fun r => r.code == "PIN_BLOCKED") = true
      ∧ (runValidate c4_state_blocked ["AB12".toList, "QQQQ".toList]).2
          = c4_state_blocked) :=
  ⟨(c4_pin_validation_monotonic c4_state_five "ab12".toList []).1 (by decide),
   (c4_pin_validation_monotonic c4_state_two "QQQQ".toList []).2.1 rfl (by decide)
     (by intro c hc; cases hc; decide) (by decide),
   (c4_pin_validation_monotonic c4_state_blocked "X".toList
      ["AB12".toList, "QQQQ".toList]).2.2 rfl⟩

/-!
## C9 — PIN generation shape
-/

/-- Every entry of the PIN character set indexed through getD is a
member of the set. -/
theorem pin_characters_getD_mem (k : Fin 36) :
    pin_characters.contains (pin_characters.getD (k : Nat) 'A') = true := by
  revert k
  decide

/-- C9 (confirmed): for every choice of random draws, the full code has
exactly 8 characters, all drawn from A-Z and 0-9, and the confirmation
code is the last 4 characters of the full code. -/
theorem c9_pin_generation (choice : Fin 8 → Fin 36) :
    (generate_delivery_pin choice).1.length = 8
    ∧ (generate_delivery_pin choice).2.length = 4
    ∧ ((generate_delivery_pin choice).1.all fun c => pin_characters.contains c) = true
    ∧ (generate_delivery_pin choice).2 = (generate_delivery_pin choice).1.drop 4 := by
  refine ⟨?_, ?_, ?_, ?_⟩
  · simp [generate_delivery_pin]
  · simp [generate_delivery_pin]
  · rw [List.all_eq_true]
    intro c hc
    rw [generate_delivery_pin] at hc
    simp only [List.mem_ofFn] at hc
    obtain ⟨i, rfl⟩ := hc
    exact pin_characters_getD_mem (choice i)
  · simp [generate_delivery_pin]

/-!
## C2 — optimize_multiple_deliveries raises on every non-empty input
-/

/-- The delivery of the repository route-optimization test
(backend_test.py test_route_optimization). -/
def c2_delivery : DeliveryOrder := ⟨1, ⟨-23.532, -47.136⟩, ⟨-23.545, -47.168⟩, 0⟩

/-- The courier location passed by the admin route endpoint
(admin_security_endpoints.py line 260): a plain lat/lng record. -/
def c2_motoboy_location : Coord := ⟨-23.53, -47.134⟩

/-- C2 (code bug): on the documented input shape — one delivery with
valid coordinates and a lat/lng courier location — the optimizer
raises KeyError on the location key: the distance loop reads
point["location"] of the start point, but the start point is the raw
motoboy_location dict whose coordinates live in top-level lat/lng
keys. Both repository callers pass exactly this shape, and the
repository test expects a successful result. -/
theorem c2_route_optimizer_keyerror :
    optimize_multiple_deliveries sqDist 12 [c2_delivery] c2_motoboy_location
      = Except.error "KeyError: 'location'" := by rfl

/-!
## C10 — a never-verified courier is always due for verification
-/

/-- C10 (confirmed): requires_verification returns true for every
courier record without a last_identity_verification timestamp,
whatever the account age, risk level or wallet balance: the regular
30-day cycle check alone already fires on a missing timestamp. -/
theorem c10_never_verified (now : ℚ) (m : MotoboyVerification)
    (h : m.last_identity_verification = none) :
    requires_verification now m = true := by
  unfold requires_verification
  rw [h]
  simp only [verification_due, Option.isNone_none, Bool.and_true]
  split_ifs <;> rfl

/-- An old, low-risk, low-balance courier without a verification
timestamp. -/
def c10_motoboy : MotoboyVerification := ⟨none, "low", some (-400), 0⟩

/-- C10 witness at a concrete courier record that is 400 days old. -/
theorem c10_witness : requires_verification 0 c10_motoboy = true :=
  c10_never_verified 0 c10_motoboy rfl

/-!
## C8 — every pickup precedes its own delivery point
-/

/-- Membership through the stable route insertion. -/
theorem mem_insertRouteAsc (key : RoutePoint → ℚ × ℚ) (x a : RoutePoint)
    (l : List RoutePoint) : a ∈ insertRouteAsc key x l ↔ a = x ∨ a ∈ l := by
  induction l with
  | nil => simp [insertRouteAsc]
  | cons b bs ih =>
    unfold insertRouteAsc
    split
    · rw [List.mem_cons, ih, List.mem_cons]
      tauto
    · rw [List.mem_cons, List.mem_cons]

/-- Membership through the stable route sort. -/
theorem mem_sortRouteAsc (key : RoutePoint → ℚ × ℚ) (a : RoutePoint)
    (l : List RoutePoint) : a ∈ sortRouteAsc key l ↔ a ∈ l := by
  induction l with
  | nil => simp [sortRouteAsc]
  | cons b bs ih =>
    unfold sortRouteAsc
    rw [mem_insertRouteAsc, ih]
    simp

/-- Every pickup fed to the pairing loop appears in the produced route
immediately followed by the first delivery point of its id. -/
theorem pairPickups_spec (dels : List RoutePoint) (ps : List RoutePoint)
    (r : List RoutePoint) (h : pairPickupsWithDeliveries dels ps = Except.ok r)
    (p : RoutePoint) (hp : p ∈ ps) :
    ∃ i, r[i]? = some p
      ∧ r[i + 1]? = dels.find? fun x => x.delivery_id == p.delivery_id := by
  induction ps generalizing r with
  | nil => cases hp
  | cons q qs ih =>
    unfold pairPickupsWithDeliveries at h
    cases hfind : (dels.find? fun x => x.delivery_id == q.delivery_id) with
    | none => rw [hfind] at h; cases h
    | some dq =>
      rw [hfind] at h
      cases hrec : pairPickupsWithDeliveries dels qs with
      | error e => rw [hrec] at h; cases h
      | ok r' =>
        rw [hrec] at h
        have hr : r = q :: dq :: r' := by
          simpa [Except.map] using h.symm
        subst hr
        rcases List.mem_cons.mp hp with hpq | hpqs
        · subst hpq
          exact ⟨0, rfl, by simpa using hfind.symm⟩
        · obtain ⟨i, hi1, hi2⟩ := ih r' hrec hpqs
          exact ⟨i + 2, by simpa using hi1, by simpa using hi2⟩

/-- Filtering the built route points for pickups yields exactly the
pickup points of the input deliveries, in input order. -/
theorem build_filter_pickups (ds : List DeliveryOrder) (mloc : Coord) :
    ((build_route_points ds mloc).filter fun p => p.ptype == some "pickup")
      = ds.map pickupPoint := by
  unfold build_route_points
  rw [List.filter_cons_of_neg (by simp [startPoint]), List.filter_append]
  have h1 : ((ds.map pickupPoint).filter fun p => p.ptype == some "pickup")
      = ds.map pickupPoint :=
    List.filter_eq_self.mpr fun p hp => by
      obtain ⟨d, _, rfl⟩ := List.mem_map.mp hp
      simp [pickupPoint]
  have h2 : ((ds.map deliveryPoint).filter fun p => p.ptype == some "pickup")
      = [] :=
    List.filter_eq_nil_iff.mpr fun p hp => by
      obtain ⟨d, _, rfl⟩ := List.mem_map.mp hp
      simp [deliveryPoint]
  rw [h1, h2, List.append_nil]

/-- Filtering the built route points for deliveries yields exactly the
delivery points of the input deliveries, in input order. -/
theorem build_filter_deliveries (ds : List DeliveryOrder) (mloc : Coord) :
    ((build_route_points ds mloc).filter fun p => p.ptype == some "delivery")
      = ds.map deliveryPoint := by
  unfold build_route_points
  rw [List.filter_cons_of_neg (by simp [startPoint]), List.filter_append]
  have h1 : ((ds.map pickupPoint).filter fun p => p.ptype == some "delivery")
      = [] :=
    List.filter_eq_nil_iff.mpr fun p hp => by
      obtain ⟨d, _, rfl⟩ := List.mem_map.mp hp
      simp [pickupPoint]
  have h2 : ((ds.map deliveryPoint).filter fun p => p.ptype == some "delivery")
      = ds.map deliveryPoint :=
    List.filter_eq_self.mpr fun p hp => by
      obtain ⟨d, _, rfl⟩ := List.mem_map.mp hp
      simp [deliveryPoint]
  rw [h1, h2, List.nil_append]

/-- The head of the non-pickup non-delivery filter of the built points
is the start point. -/
theorem build_filter_starts (ds : List DeliveryOrder) (mloc : Coord) :
    ((build_route_points ds mloc).filter fun p =>
      p.ptype != some "pickup" && p.ptype != some "delivery").head?
      = some (startPoint mloc) := by
  unfold build_route_points
  rw [List.filter_cons_of_pos (by simp [startPoint])]
  rfl

/-- With pairwise distinct ids, the first delivery point matching the
id of a member delivery is the delivery point of that delivery. -/
theorem find_delivery_point (ds : List DeliveryOrder) (d : DeliveryOrder)
    (hnodup : (ds.map DeliveryOrder.id).Nodup) (hd : d ∈ ds) :
    ((ds.map deliveryPoint).find? fun x => x.delivery_id == some d.id)
      = some (deliveryPoint d) := by
  induction ds with
  | nil => cases hd
  | cons a rest ih =>
    rw [List.map_cons, List.nodup_cons] at hnodup
    rcases List.mem_cons.mp hd with hda | hdr
    · subst hda
      rw [List.map_cons, List.find?_cons_of_pos _ (by simp [deliveryPoint])]
    · have hne : a.id ≠ d.id := by
        intro heq
        exact hnodup.1 (heq ▸ List.mem_map_of_mem DeliveryOrder.id hdr)
      rw [List.map_cons, List.find?_cons_of_neg _ (by simp [deliveryPoint, hne])]
      exact ih hnodup.2 hdr

/-- C8 (confirmed): for every delivery list with distinct ids and every
start location, the sequence produced by the routing solver places the
pickup point of each delivery strictly before the delivery point of
that same delivery. -/
theorem c8_pickup_before_delivery (dist : Coord → Coord → ℚ)
    (ds : List DeliveryOrder) (mloc : Coord) (seq : List RoutePoint)
    (d : DeliveryOrder) (hnodup : (ds.map DeliveryOrder.id).Nodup) (hd : d ∈ ds)
    (hsolve : solve_vehicle_routing dist (build_route_points ds mloc)
      = Except.ok seq) :
    ∃ i j : Nat, i < j ∧ seq[i]? = some (pickupPoint d)
      ∧ seq[j]? = some (deliveryPoint d) := by
  unfold solve_vehicle_routing at hsolve
  simp only [build_filter_pickups, build_filter_deliveries, build_filter_starts,
    startPoint] at hsolve
  cases hpair : pairPickupsWithDeliveries (ds.map deliveryPoint)
      (sortRouteAsc (routeSortKey dist ⟨mloc.lat, mloc.lng⟩) (ds.map pickupPoint)) with
  | error e =>
    rw [hpair] at hsolve
    cases hsolve
  | ok r =>
    rw [hpair] at hsolve
    have hseq : seq = startPoint mloc :: r := by
      simpa [Except.map, startPoint] using hsolve.symm
    have hmem : pickupPoint d ∈ sortRouteAsc
        (routeSortKey dist ⟨mloc.lat, mloc.lng⟩) (ds.map pickupPoint) := by
      rw [mem_sortRouteAsc]
      exact List.mem_map_of_mem pickupPoint hd
    obtain ⟨i, hi1, hi2⟩ := pairPickups_spec _ _ _ hpair _ hmem
    rw [show (pickupPoint d).delivery_id = some d.id from rfl] at hi2
    rw [find_delivery_point ds d hnodup hd] at hi2
    refine ⟨i + 1, i + 2, by omega, ?_, ?_⟩
    · rw [hseq]
      simpa using hi1
    · rw [hseq]
      simpa using hi2

/-- A concrete single-delivery instance for the C8 witness. -/
def c8_delivery : DeliveryOrder := ⟨7, ⟨1, 2⟩, ⟨3, 4⟩, 5⟩

/-- The sequence the solver produces for the single-delivery
instance. -/
def c8_sequence : List RoutePoint :=
  [startPoint ⟨0, 0⟩, pickupPoint c8_delivery, deliveryPoint c8_delivery]

/-- C8 witness: the theorem applied to the concrete single-delivery
instance. -/
theorem c8_witness :
    ∃ i j : Nat, i < j ∧ c8_sequence[i]? = some (pickupPoint c8_delivery)
      ∧ c8_sequence[j]? = some (deliveryPoint c8_delivery) :=
  c8_pickup_before_delivery sqDist [c8_delivery] ⟨0, 0⟩ c8_sequence c8_delivery
    (by simp) (by simp) rfl

/-!
## C6 — matcher eligibility and the distance tie-break
-/

/-- Membership through the stable candidate insertion. -/
theorem mem_insertCandidateDesc (x a : Candidate) (l : List Candidate) :
    a ∈ insertCandidateDesc x l ↔ a = x ∨ a ∈ l := by
  induction l with
  | nil => simp [insertCandidateDesc]
  | cons b bs ih =>
    unfold insertCandidateDesc
    split
    · rw [List.mem_cons, ih, List.mem_cons]
      tauto
    · rw [List.mem_cons, List.mem_cons]

/-- Membership through the stable candidate sort. -/
theorem mem_sortCandidatesDesc (a : Candidate) (l : List Candidate) :
    a ∈ sortCandidatesDesc l ↔ a ∈ l := by
  induction l with
  | nil => simp [sortCandidatesDesc]
  | cons b bs ih =>
    unfold sortCandidatesDesc
    rw [mem_insertCandidateDesc, ih]
    simp

/-- The proximity contribution is strictly larger for the strictly
nearer courier when the nearer distance is below 10 km. -/
theorem proximity_strict (d1 d2 : ℚ) (hlt : d1 < d2) (h10 : d1 < 10) :
    qmax 0 (100 - d2 * 10) < qmax 0 (100 - d1 * 10) := by
  unfold qmax
  split_ifs <;> linarith

/-- The stable descending sort of a two-candidate list. -/
theorem sortCandidatesDesc_pair (c1 c2 : Candidate) :
    sortCandidatesDesc [c1, c2]
      = if c1.weighted_score < c2.weighted_score then [c2, c1] else [c1, c2] := by
  simp [sortCandidatesDesc, insertCandidateDesc]

/-- C6 (amended): the matcher only ever selects an available courier of
the pickup city from the candidate pool; and in a two-courier pool of
equal ranking scores where the strictly nearer courier is within 10 km
(so the proximity scores differ), the nearer courier is selected in
either listing order. On exactly tied weighted scores (for example two
couriers 11 km and 12 km away, both with proximity score 0) the
first-listed courier wins instead. -/
theorem c6_matcher (dist : Coord → Coord → ℚ) (motoboys : List Motoboy)
    (city : String) (pickup : Coord) :
    (∀ c, find_best_motoboy dist motoboys city pickup = some c →
      c.motoboy.is_available = true ∧ c.motoboy.base_city = city
      ∧ c.motoboy ∈ motoboys)
    ∧ (∀ m1 m2 loc1 loc2,
      m1.is_available = true → m2.is_available = true →
      m1.base_city = city → m2.base_city = city →
      m1.current_location = some loc1 → m2.current_location = some loc2 →
      m1.ranking_score.getD 100 = m2.ranking_score.getD 100 →
      dist loc1 pickup < dist loc2 pickup → dist loc1 pickup < 10 →
      (find_best_motoboy dist [m1, m2] city pickup).map Candidate.motoboy = some m1
      ∧ (find_best_motoboy dist [m2, m1] city pickup).map Candidate.motoboy
          = some m1) := by
  constructor
  · intro c h
    simp only [find_best_motoboy] at h
    split at h
    · cases h
    · have hc := List.mem_of_mem_head? (Option.mem_def.mpr h)
      rw [mem_sortCandidatesDesc] at hc
      obtain ⟨m, hm, hfm⟩ := List.mem_filterMap.mp hc
      obtain ⟨hmem, hpred⟩ := List.mem_filter.mp hm
      have hmc : c.motoboy = m := by
        cases hloc : m.current_location with
        | none => rw [hloc] at hfm; cases hfm
        | some loc =>
          rw [hloc] at hfm
          cases hfm
          rfl
      rw [Bool.and_eq_true, beq_iff_eq] at hpred
      exact ⟨hmc ▸ hpred.1, hmc ▸ hpred.2, hmc ▸ hmem⟩
  · intro m1 m2 loc1 loc2 h1a h2a h1c h2c h1l h2l hrank hlt h10
    have hw : m2.ranking_score.getD 100 * 0.7 + qmax 0 (100 - dist loc2 pickup * 10) * 0.3
        < m1.ranking_score.getD 100 * 0.7 + qmax 0 (100 - dist loc1 pickup * 10) * 0.3 := by
      rw [hrank]
      have := proximity_strict (dist loc1 pickup) (dist loc2 pickup) hlt h10
      linarith
    constructor
    · simp only [find_best_motoboy]
      rw [List.filter_cons_of_pos (by simp [h1a, h1c]),
        List.filter_cons_of_pos (by simp [h2a, h2c]), List.filter_nil]
      rw [if_neg (by simp)]
      simp only [List.filterMap, h1l, h2l]
      rw [sortCandidatesDesc_pair]
      rw [if_neg (not_lt.mpr (le_of_lt hw))]
      rfl
    · simp only [find_best_motoboy]
      rw [List.filter_cons_of_pos (by simp [h2a, h2c]),
        List.filter_cons_of_pos (by simp [h1a, h1c]), List.filter_nil]
      rw [if_neg (by simp)]
      simp only [List.filterMap, h1l, h2l]
      rw [sortCandidatesDesc_pair]
      rw [if_pos hw]
      rfl

/-- The pickup coordinate of the concrete matcher scenarios. -/
def c6_pickup : Coord := ⟨0, 0⟩

/-- An eligible courier 12 km from the pickup, listed first. -/
def c6_far : Motoboy := ⟨1, true, "São Roque", some ⟨12, 0⟩, some 80⟩

/-- An eligible courier 11 km from the pickup, listed second. -/
def c6_near : Motoboy := ⟨2, true, "São Roque", some ⟨11, 0⟩, some 80⟩

/-- C6 counterexample: two eligible couriers of equal ranking score at
11 km and 12 km both get proximity score 0, so their weighted scores
tie and the first-listed courier — the farther one — is selected,
refuting the claim that the lower distance_to_pickup wins on equal
ranking. -/
theorem c6_counterexample :
    (find_best_motoboy sqDist [c6_far, c6_near] "São Roque" c6_pickup).map
        (fun c => c.motoboy.mid) = some 1
    ∧ sqDist ⟨11, 0⟩ c6_pickup < sqDist ⟨12, 0⟩ c6_pickup
    ∧ c6_far.ranking_score = c6_near.ranking_score
    ∧ c6_far.is_available = true ∧ c6_near.is_available = true
    ∧ c6_far.base_city = "São Roque" ∧ c6_near.base_city = "São Roque"
    ∧ c6_far.current_location = some ⟨12, 0⟩
    ∧ c6_near.current_location = some ⟨11, 0⟩ := by
  refine ⟨?_, by norm_num [sqDist, c6_pickup], rfl, rfl, rfl, rfl, rfl, rfl, rfl⟩
  simp only [find_best_motoboy]
  rw [List.filter_cons_of_pos (by decide), List.filter_cons_of_pos (by decide),
    List.filter_nil]
  rw [if_neg (by decide)]
  simp only [List.filterMap, c6_far, c6_near]
  rw [sortCandidatesDesc_pair]
  rw [if_neg (by norm_num [sqDist, qmax, c6_pickup])]
  rfl

/-- An eligible courier 2 km from the pickup. -/
def c6w_m1 : Motoboy := ⟨3, true, "São Roque", some ⟨2, 0⟩, some 90⟩

/-- An eligible courier 5 km from the pickup. -/
def c6w_m2 : Motoboy := ⟨4, true, "São Roque", some ⟨5, 0⟩, some 90⟩

/-- The candidate entry the matcher builds for the nearer witness
courier: squared distance 4, proximity 100 - 40 = 60, weighted score
90 * 0.7 + 60 * 0.3 = 81. -/
def c6w_cand : Candidate := ⟨c6w_m1, 4, 81, 90⟩

/-- Evaluation of the matcher on the witness pool. -/
theorem c6w_eval :
    find_best_motoboy sqDist [c6w_m1, c6w_m2] "São Roque" c6_pickup
      = some c6w_cand := by
  simp only [find_best_motoboy]
  rw [List.filter_cons_of_pos (by decide), List.filter_cons_of_pos (by decide),
    List.filter_nil]
  rw [if_neg (by decide)]
  simp only [List.filterMap, c6w_m1, c6w_m2]
  rw [sortCandidatesDesc_pair]
  rw [if_neg (by norm_num [sqDist, qmax, c6_pickup])]
  show some _ = some c6w_cand
  rw [c6w_cand, c6w_m1]
  norm_num [sqDist, qmax, c6_pickup]

/-- C6 witness: both parts of the amended theorem applied at the
concrete witness pool. -/
theorem c6_witness :
    ((find_best_motoboy sqDist [c6w_m1, c6w_m2] "São Roque" c6_pickup).map
        Candidate.motoboy = some c6w_m1
      ∧ (find_best_motoboy sqDist [c6w_m2, c6w_m1] "São Roque" c6_pickup).map
        Candidate.motoboy = some c6w_m1)
    ∧ (c6w_cand.motoboy.is_available = true
      ∧ c6w_cand.motoboy.base_city = "São Roque"
      ∧ c6w_cand.motoboy ∈ [c6w_m1, c6w_m2]) :=
  ⟨(c6_matcher sqDist [c6w_m1, c6w_m2] "São Roque" c6_pickup).2 c6w_m1 c6w_m2
      ⟨2, 0⟩ ⟨5, 0⟩ rfl rfl rfl rfl rfl rfl rfl
      (by norm_num [sqDist, c6_pickup]) (by norm_num [sqDist, c6_pickup]),
   (c6_matcher sqDist [c6w_m1, c6w_m2] "São Roque" c6_pickup).1 c6w_cand c6w_eval⟩

/-!
## C7 — risk aggregate formula, bounds and level boundaries
-/

/-- The carousel factor score is 0 or 1. -/
theorem carousel_score_bounds (m : MotoboyData) :
    0 ≤ (analyze_carousel_pattern m).score ∧ (analyze_carousel_pattern m).score ≤ 1 := by
  simp only [analyze_carousel_pattern]
  split_ifs <;> norm_num

/-- The speed factor score lies in [0, 1]: the branch guard
max_speed > 80 makes the normalized score positive, and the min caps
it at 1. -/
theorem speed_score_bounds (dist : Coord → Coord → ℚ) (m : MotoboyData) :
    0 ≤ (analyze_speed_patterns dist m).score
    ∧ (analyze_speed_patterns dist m).score ≤ 1 := by
  simp only [analyze_speed_patterns]
  split
  · norm_num
  · split
    · norm_num
    · rename_i max_speed _
      split_ifs with h
      · dsimp only
        unfold qmin
        split_ifs <;> constructor <;> linarith
      · norm_num

/-- The time factor score lies in [0, 1]: it is either 0 or the
anomalous fraction of a non-empty list. -/
theorem time_score_bounds (m : MotoboyData) :
    0 ≤ (analyze_time_patterns m).score ∧ (analyze_time_patterns m).score ≤ 1 := by
  simp only [analyze_time_patterns]
  split_ifs with h1 h2 h3
  · norm_num
  · norm_num
  · dsimp only
    have hpos : 0 < ((m.delivery_history.filter fun d =>
        d.status == "delivered").filterMap fun d =>
        match d.pickup_confirmed_at, d.delivered_at with
        | some p, some q => some (q - p)
        | _, _ => none).length := by
      rw [Bool.not_eq_true] at h2
      exact List.length_pos.mpr (List.isEmpty_eq_false.mp h2)
    constructor
    · exact div_nonneg (Nat.cast_nonneg _) (Nat.cast_nonneg _)
    · rw [div_le_one (by exact_mod_cast hpos)]
      exact_mod_cast List.length_filter_le _ _
  · norm_num

/-- The location-consistency factor score lies in [0, 1]. -/
theorem location_score_bounds (dist : Coord → Coord → ℚ) (m : MotoboyData) :
    0 ≤ (analyze_location_consistency dist m).score
    ∧ (analyze_location_consistency dist m).score ≤ 1 := by
  simp only [analyze_location_consistency]
  split_ifs with h1 h2 h3
  · norm_num
  · norm_num
  · dsimp only
    unfold qmin
    split_ifs with h4
    · constructor <;> norm_num
    · constructor
      · positivity
      · linarith [not_lt.mp h4]
  · norm_num

/-- The sum of the four factor scores is nonnegative. -/
theorem factor_score_sum_nonneg (dist : Coord → Coord → ℚ) (m : MotoboyData) :
    0 ≤ factor_score_sum dist m := by
  unfold factor_score_sum risk_factor_list
  simp only [List.map_cons, List.map_nil, List.sum_cons, List.sum_nil, add_zero]
  have h1 := carousel_score_bounds m
  have h2 := speed_score_bounds dist m
  have h3 := time_score_bounds m
  have h4 := location_score_bounds dist m
  linarith [h1.1, h2.1, h3.1, h4.1]

/-- Rounding to two decimals preserves the [0, 100] window. -/
theorem roundTo2_bounds (x : ℚ) (h0 : 0 ≤ x) (h100 : x ≤ 100) :
    0 ≤ roundTo2 x ∧ roundTo2 x ≤ 100 := by
  unfold roundTo2
  rw [round_eq]
  have hl : (0 : ℤ) ≤ ⌊x * 100 + 1 / 2⌋ := Int.le_floor.mpr (by push_cast; linarith)
  have hu : ⌊x * 100 + 1 / 2⌋ < 10001 := Int.floor_lt.mpr (by push_cast; linarith)
  constructor
  · apply div_nonneg _ (by norm_num)
    exact_mod_cast hl
  · rw [div_le_iff (by norm_num)]
    have : (⌊x * 100 + 1 / 2⌋ : ℚ) ≤ 10000 := by exact_mod_cast Int.lt_add_one_iff.mp hu
    linarith

/-- Characterization of the four level strings produced by the
threshold chain at 25, 50 and 75. -/
theorem level_chain_iffs (x : ℚ) :
    ((if x ≤ 25 then "low" else if x ≤ 50 then "medium"
      else if x ≤ 75 then "high" else "critical") = "low" ↔ x ≤ 25)
    ∧ ((if x ≤ 25 then "low" else if x ≤ 50 then "medium"
      else if x ≤ 75 then "high" else "critical") = "medium" ↔ 25 < x ∧ x ≤ 50)
    ∧ ((if x ≤ 25 then "low" else if x ≤ 50 then "medium"
      else if x ≤ 75 then "high" else "critical") = "high" ↔ 50 < x ∧ x ≤ 75)
    ∧ ((if x ≤ 25 then "low" else if x ≤ 50 then "medium"
      else if x ≤ 75 then "high" else "critical") = "critical" ↔ 75 < x) := by
  split_ifs with h1 h2 h3 <;>
    refine ⟨?_, ?_, ?_, ?_⟩ <;> constructor <;> intro h <;>
      first
      | rfl
      | linarith
      | (exact ⟨by linarith, by linarith⟩)
      | (exact absurd h (by decide))
      | (exfalso; rcases h with ⟨ha, hb⟩; linarith)
      | (exfalso; linarith)

/-- C7 (amended): the unrounded aggregate min(sum of factor scores *
25, 100) always lies in [0, 100] and determines the level with exact
boundaries (25, 50, 75); the reported risk_score field is that
aggregate rounded to two decimals (hence also in [0, 100]), and in
general differs from the exact aggregate by the rounding. -/
theorem c7_risk_analyzer (dist : Coord → Coord → ℚ) (m : MotoboyData) :
    (analyze_behavioral_risk dist m).risk_score
      = roundTo2 (qmin (factor_score_sum dist m * 25) 100)
    ∧ 0 ≤ qmin (factor_score_sum dist m * 25) 100
    ∧ qmin (factor_score_sum dist m * 25) 100 ≤ 100
    ∧ 0 ≤ (analyze_behavioral_risk dist m).risk_score
    ∧ (analyze_behavioral_risk dist m).risk_score ≤ 100
    ∧ ((analyze_behavioral_risk dist m).risk_level = "low"
        ↔ qmin (factor_score_sum dist m * 25) 100 ≤ 25)
    ∧ ((analyze_behavioral_risk dist m).risk_level = "medium"
        ↔ 25 < qmin (factor_score_sum dist m * 25) 100
          ∧ qmin (factor_score_sum dist m * 25) 100 ≤ 50)
    ∧ ((analyze_behavioral_risk dist m).risk_level = "high"
        ↔ 50 < qmin (factor_score_sum dist m * 25) 100
          ∧ qmin (factor_score_sum dist m * 25) 100 ≤ 75)
    ∧ ((analyze_behavioral_risk dist m).risk_level = "critical"
        ↔ 75 < qmin (factor_score_sum dist m * 25) 100) := by
  have hs0 := factor_score_sum_nonneg dist m
  have h0 : 0 ≤ qmin (factor_score_sum dist m * 25) 100 := by
    unfold qmin
    split_ifs <;> linarith
  have h100 : qmin (factor_score_sum dist m * 25) 100 ≤ 100 := by
    unfold qmin
    split_ifs <;> linarith
  have hround := roundTo2_bounds _ h0 h100
  have hlevel : (analyze_behavioral_risk dist m).risk_level
      = (if qmin (factor_score_sum dist m * 25) 100 ≤ 25 then "low"
        else if qmin (factor_score_sum dist m * 25) 100 ≤ 50 then "medium"
        else if qmin (factor_score_sum dist m * 25) 100 ≤ 75 then "high"
        else "critical") := rfl
  have hiffs := level_chain_iffs (qmin (factor_score_sum dist m * 25) 100)
  exact ⟨rfl, h0, h100, hround.1, hround.2,
    hlevel ▸ hiffs.1, hlevel ▸ hiffs.2.1, hlevel ▸ hiffs.2.2.1, hlevel ▸ hiffs.2.2.2⟩

/-- A courier whose three-point location trace has one out-of-bounds
point for the base city, producing a location-consistency score of
1/3 (timestamps are far apart, so no impossible jumps). -/
def c7_motoboy : MotoboyData :=
  ⟨[], [⟨-23.55, -47.15, 0⟩, ⟨0, 0, 1000000⟩, ⟨-23.55, -47.15, 2000000⟩], "São Roque"⟩

/-- The location factor of the concrete courier scores 1/3. -/
theorem c7_location_eval :
    (analyze_location_consistency sqDist c7_motoboy).score = 1 / 3 := by
  norm_num [analyze_location_consistency, c7_motoboy, consecutivePairs, sqDist,
    get_city_boundaries, is_within_city_boundaries, qmin, List.filterMap_cons,
    List.filterMap_nil, List.filter_cons, List.filter_nil, decide_eq_true_eq]

/-- The factor sum of the concrete courier is 1/3: the other three
factors degrade to 0 on the short histories. -/
theorem c7_sum_eval : factor_score_sum sqDist c7_motoboy = 1 / 3 := by
  have hcar : analyze_carousel_pattern c7_motoboy
      = ⟨"carousel_pattern", 0, "Insufficient data"⟩ := rfl
  have hspeed : analyze_speed_patterns sqDist c7_motoboy
      = ⟨"speed_anomaly", 0, "Insufficient location data"⟩ := rfl
  have htime : analyze_time_patterns c7_motoboy
      = ⟨"time_anomaly", 0, "Insufficient completed deliveries"⟩ := rfl
  unfold factor_score_sum risk_factor_list
  rw [hcar, hspeed, htime]
  simp only [List.map_cons, List.map_nil, List.sum_cons, List.sum_nil]
  rw [c7_location_eval]
  norm_num

/-- C7 counterexample: on the concrete courier the aggregate formula
yields 25/3 = 8.333..., but the reported risk_score field is the
two-decimal rounding 8.33, so the reported aggregate does not equal
min(sum of factor scores * 25, 100) exactly. -/
theorem c7_counterexample :
    (analyze_behavioral_risk sqDist c7_motoboy).risk_score
      ≠ qmin (factor_score_sum sqDist c7_motoboy * 25) 100 := by
  have heq : (analyze_behavioral_risk sqDist c7_motoboy).risk_score
      = roundTo2 (qmin (factor_score_sum sqDist c7_motoboy * 25) 100) := rfl
  rw [heq, c7_sum_eval]
  norm_num [roundTo2, qmin, round_eq]

/-- C7 witness: the amended theorem applied at the concrete courier. -/
theorem c7_witness :
    (analyze_behavioral_risk sqDist c7_motoboy).risk_score
      = roundTo2 (qmin (factor_score_sum sqDist c7_motoboy * 25) 100)
    ∧ 0 ≤ qmin (factor_score_sum sqDist c7_motoboy * 25) 100
    ∧ qmin (factor_score_sum sqDist c7_motoboy * 25) 100 ≤ 100
    ∧ 0 ≤ (analyze_behavioral_risk sqDist c7_motoboy).risk_score
    ∧ (analyze_behavioral_risk sqDist c7_motoboy).risk_score ≤ 100
    ∧ ((analyze_behavioral_risk sqDist c7_motoboy).risk_level = "low"
        ↔ qmin (factor_score_sum sqDist c7_motoboy * 25) 100 ≤ 25)
    ∧ ((analyze_behavioral_risk sqDist c7_motoboy).risk_level = "medium"
        ↔ 25 < qmin (factor_score_sum sqDist c7_motoboy * 25) 100
          ∧ qmin (factor_score_sum sqDist c7_motoboy * 25) 100 ≤ 50)
    ∧ ((analyze_behavioral_risk sqDist c7_motoboy).risk_level = "high"
        ↔ 50 < qmin (factor_score_sum sqDist c7_motoboy * 25) 100
          ∧ qmin (factor_score_sum sqDist c7_motoboy * 25) 100 ≤ 75)
    ∧ ((analyze_behavioral_risk sqDist c7_motoboy).risk_level = "critical"
        ↔ 75 < qmin (factor_score_sum sqDist c7_motoboy * 25) 100) :=
  c7_risk_analyzer sqDist c7_motoboy

/-!
## C3 — moderation of the concrete harassment message
-/

/-- The message of the claim. -/
def c3_message : List Char := "Esse idiota não sabe dirigir!".toList

/-- The profanity stage triggers on the concrete message. -/
theorem c3_profanity_eval : (check_profanity c3_message).found = true := by decide

/-- The spam stage does not trigger on the concrete message: 29
characters, one repeated pair, one uppercase letter, no URL. -/
theorem c3_spam_eval : (check_spam c3_message).is_spam = false := by
  have h1 : c3_message.length = 29 := by decide
  have h2 : repeated_chars c3_message = 1 := by decide
  have h3 : upper_count c3_message = 1 := by decide
  have h4 : strContains (pyLower c3_message) "http".toList = false := by decide
  have h5 : strContains (pyLower c3_message) "www.".toList = false := by decide
  have h6 : c3_message.isEmpty = false := by decide
  simp only [check_spam, h1, h2, h3, h4, h5, h6]
  norm_num

/-- The safety stage flags harassment on the concrete message. -/
theorem c3_safety_eval :
    (check_safety_concerns c3_message).has_concerns = true
    ∧ (check_safety_concerns c3_message).concerns = ["harassment"] := by
  have h1 : (location_keywords.any fun k => strContains (pyLower c3_message) k)
      = false := by decide
  have h2 : (emergency_keywords.any fun k => strContains (pyLower c3_message) k)
      = false := by decide
  have h3 : (harassment_keywords.any fun k => strContains (pyLower c3_message) k)
      = true := by decide
  simp [check_safety_concerns, h1, h2, h3]

/-- The positivity stage does not trigger on the concrete message. -/
theorem c3_positive_eval : (check_positive_content c3_message).is_positive = false := by
  decide

/-- C3 counterexample: the action on the claimed message is not
filtered — the harassment keyword idiota also triggers the safety
stage, which overwrites the action. -/
theorem c3_counterexample : (moderate_message c3_message).action ≠ "filtered" := by
  simp [moderate_message, c3_profanity_eval, c3_spam_eval, c3_safety_eval.1,
    c3_positive_eval]

/-- C3 (amended): moderating the message yields action
flagged_for_review (the profanity hit filters and then the harassment
safety hit tightens the action), the filtered text contains no literal
idiota (it is masked with asterisks), and both the profanity and
harassment flags are set. -/
theorem c3_moderation :
    (moderate_message c3_message).action = "flagged_for_review"
    ∧ strContains (moderate_message c3_message).filtered_message "idiota".toList
        = false
    ∧ "profanity" ∈ (moderate_message c3_message).flags
    ∧ "harassment" ∈ (moderate_message c3_message).flags := by
  refine ⟨?_, ?_, ?_, ?_⟩ <;>
    simp [moderate_message, c3_profanity_eval, c3_spam_eval, c3_safety_eval.1,
      c3_safety_eval.2, c3_positive_eval] <;>
    decide

/-!
## C5 — the confidence combination across stages
-/

/-- When the positivity stage triggers, its reported confidence is
0.8. -/
theorem check_positive_confidence_eq (m : List Char)
    (h : (check_positive_content m).is_positive = true) :
    (check_positive_content m).confidence = 0.8 := by
  simp only [check_positive_content] at h ⊢
  rw [if_pos h]

/-- C5 (amended): the final confidence equals the minimum confidence
over the triggering profanity, spam and safety stages — except that
the positivity stage, when at least two positive keywords match,
raises the confidence to the maximum of that minimum and 0.8. -/
theorem c5_confidence (m : List Char) :
    (moderate_message m).confidence =
      if (check_positive_content m).is_positive then
        qmax (min_trigger_confidence m) 0.8
      else min_trigger_confidence m := by
  by_cases h1 : (check_profanity m).found = true <;>
    by_cases h2 : (check_spam m).is_spam = true <;>
      by_cases h3 : (check_safety_concerns m).has_concerns = true <;>
        by_cases h4 : (check_positive_content m).is_positive = true <;>
          simp [moderate_message, min_trigger_confidence, h1, h2, h3, h4,
            check_positive_confidence_eq m]

/-- The message of the C5 counterexample. -/
def c5_message : List Char := "obrigado pela dica, qual o endereço".toList

/-- Profanity does not trigger on the counterexample message. -/
theorem c5_profanity_eval : (check_profanity c5_message).found = false := by decide

/-- Spam does not trigger on the counterexample message. -/
theorem c5_spam_eval : (check_spam c5_message).is_spam = false := by
  have h1 : c5_message.length = 35 := by decide
  have h2 : repeated_chars c5_message = 0 := by decide
  have h3 : upper_count c5_message = 0 := by decide
  have h4 : strContains (pyLower c5_message) "http".toList = false := by decide
  have h5 : strContains (pyLower c5_message) "www.".toList = false := by decide
  have h6 : c5_message.isEmpty = false := by decide
  simp only [check_spam, h1, h2, h3, h4, h5, h6]
  norm_num

/-- The safety stage triggers with confidence 0.7 (location keyword
endereço) on the counterexample message. -/
theorem c5_safety_eval :
    (check_safety_concerns c5_message).has_concerns = true
    ∧ (check_safety_concerns c5_message).confidence = 0.7 := by
  have h1 : (location_keywords.any fun k => strContains (pyLower c5_message) k)
      = true := by decide
  have h2 : (emergency_keywords.any fun k => strContains (pyLower c5_message) k)
      = false := by decide
  have h3 : (harassment_keywords.any fun k => strContains (pyLower c5_message) k)
      = false := by decide
  simp [check_safety_concerns, h1, h2, h3]

/-- The positivity stage triggers on the counterexample message
(obrigado and dica). -/
theorem c5_positive_eval : (check_positive_content c5_message).is_positive = true := by
  decide

/-- C5 counterexample: on the message only the safety stage triggers,
reporting confidence 0.7, yet the final confidence is 0.8 — strictly
greater than the smallest confidence reported by a triggering stage —
because the positivity stage takes a maximum with its own 0.8. -/
theorem c5_counterexample :
    (check_safety_concerns c5_message).has_concerns = true
    ∧ (check_profanity c5_message).found = false
    ∧ (check_spam c5_message).is_spam = false
    ∧ (moderate_message c5_message).confidence
        > (check_safety_concerns c5_message).confidence := by
  refine ⟨c5_safety_eval.1, c5_profanity_eval, c5_spam_eval, ?_⟩
  have h8 : (check_positive_content c5_message).confidence = 0.8 :=
    check_positive_confidence_eq c5_message c5_positive_eval
  simp only [moderate_message, c5_profanity_eval, c5_spam_eval, c5_safety_eval.1,
    c5_safety_eval.2, c5_positive_eval, h8]
  norm_num [qmin, qmax]
